import Mathlib

/-!
Verification development for the expense-bot repository (src/bot.py).

The Python source is shallowly embedded: Python floats are modelled by the
`PyFloat` type (exact rational magnitude plus nan and signed infinities),
the sqlite tables by lists of rows, the aiogram FSM session by an explicit
per-owner record, and aiogram's first-match message dispatch by an
if-chain in registration order (`handleMessage`).
-/

namespace ExpenseBot

/-! ## Python float values

A Python `float` is modelled with an exact rational magnitude (binary
rounding is idealised away) plus `nan`, `inf` and `ninf`.  The arithmetic
and comparison tables follow IEEE-754 semantics as exposed by Python:
comparisons with `nan` are false, `inf + ninf` is `nan`, and so on. -/

/-! Rational arithmetic is expressed through `mkRat`-based operations
(`qadd`, `qmul`, ...) that are definitionally equal to their library
counterparts (bridge lemmas `qadd_eq` etc. below) but evaluate inside
`decide`, which the library's `@[irreducible]` field operations do not. -/

def qadd (a b : ℚ) : ℚ := mkRat (a.num * b.den + b.num * a.den) (a.den * b.den)

def qsub (a b : ℚ) : ℚ := qadd a (-b)

def qmul (a b : ℚ) : ℚ := mkRat (a.num * b.num) (a.den * b.den)

def qinv (a : ℚ) : ℚ :=
  if 0 ≤ a.num then mkRat (a.den : ℤ) a.num.natAbs
  else mkRat (-(a.den : ℤ)) a.num.natAbs

def qdiv (a b : ℚ) : ℚ := qmul a (qinv b)

/-- `⌊a⌋` as an executable integer floor division. -/
def qfloor (a : ℚ) : ℤ := Int.fdiv a.num a.den

theorem qadd_eq (a b : ℚ) : qadd a b = a + b := by
  have hA : (a.den : ℚ) ≠ 0 := by positivity
  have hB : (b.den : ℚ) ≠ 0 := by positivity
  rw [qadd, Rat.mkRat_eq_div]
  conv_rhs => rw [← Rat.num_div_den a, ← Rat.num_div_den b]
  rw [div_add_div _ _ hA hB]
  push_cast
  ring_nf

theorem qsub_eq (a b : ℚ) : qsub a b = a - b := by
  rw [qsub, qadd_eq]; ring

theorem qmul_eq (a b : ℚ) : qmul a b = a * b := by
  rw [qmul, Rat.mkRat_eq_div]
  conv_rhs => rw [← Rat.num_div_den a, ← Rat.num_div_den b]
  rw [div_mul_div_comm]
  push_cast
  ring_nf

theorem qinv_eq (a : ℚ) : qinv a = a⁻¹ := by
  have ha : a⁻¹ = (a.den : ℚ) / (a.num : ℚ) := by
    conv_lhs => rw [← Rat.num_div_den a]
    rw [inv_div]
  rw [qinv, ha]
  by_cases h : 0 ≤ a.num
  · rw [if_pos h, Rat.mkRat_eq_div]
    push_cast [Int.cast_natAbs]
    rw [abs_of_nonneg (by exact_mod_cast h : (0 : ℚ) ≤ (a.num : ℚ))]
  · rw [if_neg h, Rat.mkRat_eq_div]
    push_cast [Int.cast_natAbs]
    rw [abs_of_neg (by exact_mod_cast not_le.mp h : (a.num : ℚ) < 0)]
    ring

theorem qdiv_eq (a b : ℚ) : qdiv a b = a / b := by
  rw [qdiv, qmul_eq, qinv_eq, div_eq_mul_inv]

inductive PyFloat where
  | num (q : ℚ)
  | nan
  | inf
  | ninf
deriving DecidableEq

/-- Python `x <= y` on floats (false whenever either side is nan). -/
def pyLe : PyFloat → PyFloat → Bool
  | .nan, _ => false
  | _, .nan => false
  | .num p, .num q => decide (p ≤ q)
  | .num _, .inf => true
  | .num _, .ninf => false
  | .inf, .inf => true
  | .inf, _ => false
  | .ninf, _ => true

/-- Python `x < y` on floats (false whenever either side is nan). -/
def pyLt : PyFloat → PyFloat → Bool
  | .nan, _ => false
  | _, .nan => false
  | .num p, .num q => decide (p < q)
  | .num _, .inf => true
  | .num _, .ninf => false
  | .inf, _ => false
  | .ninf, .ninf => false
  | .ninf, _ => true

/-- Python `x >= y` on floats. -/
def pyGe (x y : PyFloat) : Bool := pyLe y x

def pyNeg : PyFloat → PyFloat
  | .num q => .num (-q)
  | .nan => .nan
  | .inf => .ninf
  | .ninf => .inf

def pyAdd : PyFloat → PyFloat → PyFloat
  | .nan, _ => .nan
  | _, .nan => .nan
  | .num p, .num q => .num (qadd p q)
  | .num _, .inf => .inf
  | .num _, .ninf => .ninf
  | .inf, .num _ => .inf
  | .ninf, .num _ => .ninf
  | .inf, .inf => .inf
  | .ninf, .ninf => .ninf
  | .inf, .ninf => .nan
  | .ninf, .inf => .nan

def pySub (x y : PyFloat) : PyFloat := pyAdd x (pyNeg y)

def pyMul : PyFloat → PyFloat → PyFloat
  | .nan, _ => .nan
  | _, .nan => .nan
  | .num p, .num q => .num (qmul p q)
  | .num p, .inf => if 0 < p then .inf else if p < 0 then .ninf else .nan
  | .num p, .ninf => if 0 < p then .ninf else if p < 0 then .inf else .nan
  | .inf, .num q => if 0 < q then .inf else if q < 0 then .ninf else .nan
  | .ninf, .num q => if 0 < q then .ninf else if q < 0 then .inf else .nan
  | .inf, .inf => .inf
  | .inf, .ninf => .ninf
  | .ninf, .inf => .ninf
  | .ninf, .ninf => .inf

/-- Python float division.  A zero divisor raises `ZeroDivisionError` in
Python; no modelled code path reaches it (every division in the source is
guarded by a positivity check or uses a nonzero exchange rate), so that
branch is mapped to `nan` merely to keep the function total. -/
def pyDiv : PyFloat → PyFloat → PyFloat
  | .nan, _ => .nan
  | _, .nan => .nan
  | .num p, .num q => if q = 0 then .nan else .num (qdiv p q)
  | .num _, .inf => .num 0
  | .num _, .ninf => .num 0
  | .inf, .num q => if q < 0 then .ninf else .inf
  | .ninf, .num q => if q < 0 then .inf else .ninf
  | .inf, .inf => .nan
  | .inf, .ninf => .nan
  | .ninf, .inf => .nan
  | .ninf, .ninf => .nan

/-- Python truthiness of a float: `0.0` is falsy, everything else
(including nan and the infinities) truthy. -/
def pyTruthy : PyFloat → Bool
  | .num q => decide (q ≠ 0)
  | _ => true

def pyIsFinite : PyFloat → Bool
  | .num _ => true
  | _ => false

/-- Round a rational to the nearest integer, ties to even — the rounding
used by Python's `round`. -/
def roundHalfEven (q : ℚ) : ℤ :=
  let f := qfloor q
  let frac := qsub q (mkRat f 1)
  if frac < mkRat 1 2 then f
  else if mkRat 1 2 < frac then f + 1
  else if f % 2 = 0 then f else f + 1

/-- Python `round(x, 2)`. -/
def pyRound2 : PyFloat → PyFloat
  | .num q => .num (mkRat (roundHalfEven (qmul q (mkRat 100 1))) 100)
  | .nan => .nan
  | .inf => .inf
  | .ninf => .ninf

/-- Python sum of a list of floats starting from `0` (the semantics of
sqlite `SUM(...)` combined with the source's `result[0] or 0`). -/
def pySum (l : List PyFloat) : PyFloat := l.foldl pyAdd (.num 0)

/-! ## The Python `float(str)` parser

Models CPython's string-to-float conversion: optional surrounding
whitespace, optional sign, `nan` / `inf` / `infinity` (case-insensitive),
or a decimal literal with optional fractional part and exponent,
underscores allowed only between digits.  Magnitudes are kept exact. -/

def isPyWs (c : Char) : Bool :=
  c = ' ' || c = '\t' || c = '\n' || c = '\r' || c = '\x0b' || c = '\x0c'

def pyStrip (cs : List Char) : List Char :=
  ((cs.dropWhile isPyWs).reverse.dropWhile isPyWs).reverse

/-- Every underscore must be immediately surrounded by digits. -/
def underscoresOk : List Char → Bool
  | [] => true
  | '_' :: _ => false
  | c :: '_' :: rest =>
    if c.isDigit then
      match rest with
      | d :: _ => d.isDigit && underscoresOk rest
      | [] => false
    else false
  | _ :: rest => underscoresOk rest

/-- Read a (possibly empty) all-digit string as a natural number; `none`
if some character is not a digit. -/
def digitsVal (acc : ℕ) : List Char → Option ℕ
  | [] => some acc
  | c :: rest => if c.isDigit then digitsVal (acc * 10 + (c.toNat - 48)) rest else none

/-- Parse the body of a decimal float literal (sign already removed,
letters lowercased): `digits [. digits] [e [sign] digits]` with at least
one mantissa digit. -/
def parseNumber (cs : List Char) : Option ℚ :=
  let mant := cs.takeWhile (fun c => c ≠ 'e')
  let rest := cs.dropWhile (fun c => c ≠ 'e')
  let expVal : Option ℤ :=
    match rest with
    | [] => some 0
    | _ :: expChars =>
      match expChars with
      | '+' :: ds => if ds = [] then none else (digitsVal 0 ds).map (fun n => (n : ℤ))
      | '-' :: ds => if ds = [] then none else (digitsVal 0 ds).map (fun n => -(n : ℤ))
      | ds => if ds = [] then none else (digitsVal 0 ds).map (fun n => (n : ℤ))
  let intPart := mant.takeWhile (fun c => c ≠ '.')
  let fracRest := mant.dropWhile (fun c => c ≠ '.')
  let fracDigits : Option (List Char) :=
    match fracRest with
    | [] => some []
    | _ :: fs => if fs.contains '.' then none else some fs
  match fracDigits with
  | none => none
  | some fs =>
    if intPart = [] ∧ fs = [] then none
    else
      match digitsVal 0 intPart, digitsVal 0 fs, expVal with
      | some ip, some fp, some e =>
        let base : ℚ := qadd (mkRat (ip : ℤ) 1) (mkRat (fp : ℤ) (10 ^ fs.length))
        some (if 0 ≤ e then qmul base (mkRat ((10 : ℤ) ^ e.toNat) 1)
              else qmul base (mkRat 1 (10 ^ (-e).toNat)))
      | _, _, _ => none

/-- Python `float(s)`. -/
def parseFloat (s : String) : Option PyFloat :=
  let cs0 := pyStrip s.data
  if underscoresOk cs0 = false then none
  else
    let cs1 := cs0.filter (fun c => c ≠ '_')
    let signBody : Bool × List Char :=
      match cs1 with
      | '+' :: rest => (false, rest)
      | '-' :: rest => (true, rest)
      | rest => (false, rest)
    let neg := signBody.1
    let lower := signBody.2.map Char.toLower
    if lower = "nan".data then some .nan
    else if lower = "inf".data ∨ lower = "infinity".data then
      some (if neg then .ninf else .inf)
    else
      match parseNumber lower with
      | some q => some (.num (if neg then -q else q))
      | none => none

/-- `text.replace(",", ".").replace(" ", "")` — the normalisation applied
by every wizard amount step before calling `float`. -/
def normalizeAmountText (s : String) : String :=
  ⟨(s.data.map (fun c => if c = ',' then '.' else c)).filter (fun c => c ≠ ' ')⟩

/-- The shared amount-step parser:
`amount = float(text.replace(",", ".").replace(" ", ""))` followed by
`if amount <= 0: raise ValueError`.  `none` is the `ValueError` path
(either from `float` or from the guard). -/
def parsedAmount (t : String) : Option PyFloat :=
  match parseFloat (normalizeAmountText t) with
  | none => none
  | some v => if pyLe v (.num 0) then none else some v

/-! ## Data model

sqlite rows become list entries.  Dates are day numbers (`ℤ`); the
current time is passed explicitly through a `Clock` (the embedding of
`datetime.now()`): its calendar day, month, year, and the day number of
the first day of the current month. -/

/-- The global `EXCHANGE_RATES` dict: `USD`, `BYN` and `last_update`
(`none` = the initial `None`).  Rate values are exact rationals — they
come from the hardcoded fallbacks or a fetched JSON `Value`. -/
structure Rates where
  usd : ℚ
  byn : ℚ
  last_update : Option ℤ
deriving DecidableEq

/-- A row of the `expenses` or `income` table (the two tables share this
schema; `description` is always the empty string and is omitted). -/
structure MoneyRow where
  id : ℤ
  user_id : ℤ
  date : ℤ
  amount_rub : PyFloat
  amount_usd : PyFloat
  category : String
deriving DecidableEq

/-- A row of `budgets` (the surrogate `id` column is never read and is
omitted; uniqueness over `(user_id, category, month, year)` is realised
by `set_budget`'s replace). -/
structure BudgetRow where
  user_id : ℤ
  category : String
  limit_rub : PyFloat
  month : ℤ
  year : ℤ
deriving DecidableEq

/-- A row of `goals` (surrogate `id` and `created_at` omitted — no
modelled operation reads them). -/
structure GoalRow where
  user_id : ℤ
  name : String
  target_amount_rub : PyFloat
  deadline : Option String
deriving DecidableEq

/-- The whole sqlite database, plus the AUTOINCREMENT counters of the two
money tables. -/
structure DB where
  expenses : List MoneyRow
  income : List MoneyRow
  budgets : List BudgetRow
  goals : List GoalRow
  nextExpenseId : ℤ
  nextIncomeId : ℤ
deriving DecidableEq

def emptyDB : DB := ⟨[], [], [], [], 1, 1⟩

structure Clock where
  today : ℤ
  month : ℤ
  year : ℤ
  monthFirstDay : ℤ
deriving DecidableEq

/-! ## Ledger / budget / goal operations (the `DATABASE` section) -/

/-- `add_expense_to_db`: computes
`amount_usd = round(amount_rub / EXCHANGE_RATES["USD"], 2)` and inserts a
row dated today, returning `amount_usd`.  sqlite converts a bound NaN
double to NULL and the `amount_rub` / `amount_usd` columns are declared
`NOT NULL`, so the INSERT raises `IntegrityError` when either bound
amount is NaN — modelled as `none`; infinities are stored as-is. -/
def add_expense_to_db (rates : Rates) (c : Clock) (db : DB) (user_id : ℤ)
    (amount_rub : PyFloat) (category : String) : Option (PyFloat × DB) :=
  let amount_usd := pyRound2 (pyDiv amount_rub (.num rates.usd))
  if amount_rub = .nan ∨ amount_usd = .nan then none
  else some (amount_usd,
    { db with
      expenses := db.expenses ++ [⟨db.nextExpenseId, user_id, c.today, amount_rub, amount_usd, category⟩],
      nextExpenseId := db.nextExpenseId + 1 })

/-- `add_income_to_db` — symmetric to `add_expense_to_db`, including the
NaN-to-NULL `IntegrityError` on the `NOT NULL` amount columns. -/
def add_income_to_db (rates : Rates) (c : Clock) (db : DB) (user_id : ℤ)
    (amount_rub : PyFloat) (category : String) : Option (PyFloat × DB) :=
  let amount_usd := pyRound2 (pyDiv amount_rub (.num rates.usd))
  if amount_rub = .nan ∨ amount_usd = .nan then none
  else some (amount_usd,
    { db with
      income := db.income ++ [⟨db.nextIncomeId, user_id, c.today, amount_rub, amount_usd, category⟩],
      nextIncomeId := db.nextIncomeId + 1 })

/-- `set_budget`: `INSERT OR REPLACE` keyed on
`(user_id, category, month, year)` for the current month/year. -/
def set_budget (c : Clock) (db : DB) (user_id : ℤ) (category : String)
    (limit_rub : PyFloat) : DB :=
  { db with
    budgets :=
      db.budgets.filter
        (fun b => ¬(b.user_id = user_id ∧ b.category = category ∧ b.month = c.month ∧ b.year = c.year))
      ++ [⟨user_id, category, limit_rub, c.month, c.year⟩] }

/-- `get_budget`: the `limit_rub` of the current month/year budget row,
if any. -/
def get_budget (c : Clock) (db : DB) (user_id : ℤ) (category : String) : Option PyFloat :=
  (db.budgets.find?
    (fun b => b.user_id = user_id ∧ b.category = category ∧ b.month = c.month ∧ b.year = c.year)).map
    (fun b => b.limit_rub)

/-- The `SELECT SUM(amount_rub) ... WHERE user_id = ? AND category = ?
AND date >= first_day` query inside `check_budget_exceeded`, including
the trailing `or 0`. -/
def monthSpent (c : Clock) (db : DB) (user_id : ℤ) (category : String) : PyFloat :=
  pySum ((db.expenses.filter
    (fun r => r.user_id = user_id ∧ r.category = category ∧ c.monthFirstDay ≤ r.date)).map
    (fun r => r.amount_rub))

/-- `check_budget_exceeded`: `(False, 0, 0)` when `get_budget` gives a
falsy value (`None` or `0.0`), otherwise
`(percentage >= 80, spent, budget)` with
`percentage = spent / budget * 100` when `budget > 0` else `0`. -/
def check_budget_exceeded (c : Clock) (db : DB) (user_id : ℤ) (category : String) :
    Bool × PyFloat × PyFloat :=
  match get_budget c db user_id category with
  | none => (false, .num 0, .num 0)
  | some budget =>
    if pyTruthy budget = false then (false, .num 0, .num 0)
    else
      let spent := monthSpent c db user_id category
      let percentage :=
        if pyLt (.num 0) budget = true then pyMul (pyDiv spent budget) (.num 100) else .num 0
      (pyGe percentage (.num 80), spent, budget)

/-- `create_goal` (the wizard always passes `deadline=None`). -/
def create_goal (db : DB) (user_id : ℤ) (name : String) (target_rub : PyFloat)
    (deadline : Option String) : DB :=
  { db with goals := db.goals ++ [⟨user_id, name, target_rub, deadline⟩] }

/-- `get_balance`: all-time sums, returned as
`(balance_rub, balance_usd, income_rub, income_usd, expense_rub, expense_usd)`. -/
def get_balance (db : DB) (user_id : ℤ) :
    PyFloat × PyFloat × PyFloat × PyFloat × PyFloat × PyFloat :=
  let income_rub := pySum ((db.income.filter (fun r => r.user_id = user_id)).map (fun r => r.amount_rub))
  let income_usd := pySum ((db.income.filter (fun r => r.user_id = user_id)).map (fun r => r.amount_usd))
  let expense_rub := pySum ((db.expenses.filter (fun r => r.user_id = user_id)).map (fun r => r.amount_rub))
  let expense_usd := pySum ((db.expenses.filter (fun r => r.user_id = user_id)).map (fun r => r.amount_usd))
  (pySub income_rub expense_rub, pySub income_usd expense_usd,
   income_rub, income_usd, expense_rub, expense_usd)

/-- `get_total_expenses`: sums over rows with
`date >= today - timedelta(days=days-1)` (no upper bound in the query). -/
def get_total_expenses (c : Clock) (db : DB) (user_id : ℤ) (days : ℤ) : PyFloat × PyFloat :=
  let start_date := c.today - (days - 1)
  let rows := db.expenses.filter (fun r => r.user_id = user_id ∧ start_date ≤ r.date)
  (pySum (rows.map (fun r => r.amount_rub)), pySum (rows.map (fun r => r.amount_usd)))

/-- `get_total_income` — symmetric. -/
def get_total_income (c : Clock) (db : DB) (user_id : ℤ) (days : ℤ) : PyFloat × PyFloat :=
  let start_date := c.today - (days - 1)
  let rows := db.income.filter (fun r => r.user_id = user_id ∧ start_date ≤ r.date)
  (pySum (rows.map (fun r => r.amount_rub)), pySum (rows.map (fun r => r.amount_usd)))

/-- `delete_expense`: `DELETE ... WHERE id = ? AND user_id = ?`, success
iff `rowcount > 0`. -/
def delete_expense (db : DB) (expense_id : ℤ) (user_id : ℤ) : Bool × DB :=
  (db.expenses.any (fun r => r.id = expense_id ∧ r.user_id = user_id),
   { db with expenses := db.expenses.filter (fun r => ¬(r.id = expense_id ∧ r.user_id = user_id)) })

/-- `delete_income` — symmetric. -/
def delete_income (db : DB) (income_id : ℤ) (user_id : ℤ) : Bool × DB :=
  (db.income.any (fun r => r.id = income_id ∧ r.user_id = user_id),
   { db with income := db.income.filter (fun r => ¬(r.id = income_id ∧ r.user_id = user_id)) })

/-- `update_expense`: `UPDATE ... SET amount_rub, amount_usd, category
WHERE id = ? AND user_id = ?`, with `amount_usd` recomputed from the
current USD rate; success iff `rowcount > 0`. -/
def update_expense (rates : Rates) (db : DB) (expense_id : ℤ) (user_id : ℤ)
    (amount_rub : PyFloat) (category : String) : Bool × DB :=
  let amount_usd := pyRound2 (pyDiv amount_rub (.num rates.usd))
  (db.expenses.any (fun r => r.id = expense_id ∧ r.user_id = user_id),
   { db with
     expenses := db.expenses.map (fun r =>
       if r.id = expense_id ∧ r.user_id = user_id then
         { r with amount_rub := amount_rub, amount_usd := amount_usd, category := category }
       else r) })

/-- `update_income` — symmetric. -/
def update_income (rates : Rates) (db : DB) (income_id : ℤ) (user_id : ℤ)
    (amount_rub : PyFloat) (category : String) : Bool × DB :=
  let amount_usd := pyRound2 (pyDiv amount_rub (.num rates.usd))
  (db.income.any (fun r => r.id = income_id ∧ r.user_id = user_id),
   { db with
     income := db.income.map (fun r =>
       if r.id = income_id ∧ r.user_id = user_id then
         { r with amount_rub := amount_rub, amount_usd := amount_usd, category := category }
       else r) })

/-! ## Currency conversion and the rate fetch -/

/-- The second half of `convert_currency`: from an amount already pivoted
into roubles to the target currency (unknown target yields `0`). -/
def convertFromRub (rates : Rates) (amount_in_rub : PyFloat) (to_cur : String) : PyFloat :=
  if to_cur = "RUB" then amount_in_rub
  else if to_cur = "USD" then pyDiv amount_in_rub (.num rates.usd)
  else if to_cur = "BYN" then pyDiv amount_in_rub (.num rates.byn)
  else .num 0

/-- `convert_currency`: pivot through RUB; an unknown source currency
returns `0` immediately. -/
def convert_currency (rates : Rates) (amount : PyFloat) (from_cur to_cur : String) : PyFloat :=
  if from_cur = "RUB" then convertFromRub rates amount to_cur
  else if from_cur = "USD" then convertFromRub rates (pyMul amount (.num rates.usd)) to_cur
  else if from_cur = "BYN" then convertFromRub rates (pyMul amount (.num rates.byn)) to_cur
  else .num 0

/-- A `Valute` entry of the fetched JSON document; `value = none` models
an entry whose `"Value"` field is missing or unreadable (`KeyError` /
`TypeError` on access). -/
structure ValuteEntry where
  value : Option ℚ
deriving DecidableEq

/-- The fetched JSON body; `valute = none` models a document with no
`"Valute"` key (`KeyError` on `data["Valute"]`). -/
structure FetchBody where
  valute : Option (List (String × ValuteEntry))
deriving DecidableEq

/-- Outcome of the HTTP request itself. -/
inductive FetchResponse where
  | netError
  | httpResponse (status : ℕ) (body : FetchBody)
deriving DecidableEq

def lookupValute (v : List (String × ValuteEntry)) (k : String) : Option ValuteEntry :=
  (v.find? (fun p => p.1 = k)).map (fun p => p.2)

/-- The BYN half of the 200-branch of `fetch_exchange_rates`: runs after
the USD write (if any) already happened on `r`. -/
def fetchBynStep (v : List (String × ValuteEntry)) (now : ℤ) (r : Rates) :
    Option Bool × Rates :=
  match lookupValute v "BYN" with
  | some e =>
    match e.value with
    | none => (some false, r)
    | some qB => (some true, { r with byn := qB, last_update := some now })
  | none => (some true, { r with last_update := some now })

/-- `fetch_exchange_rates` acting on the rate snapshot `r`, given the
response `resp` and the current time `now`.  The first component is the
Python return value: `some true` / `some false`, or `none` for the
implicit `return None` taken when the status is not 200.  Any exception
(network error, missing key) is caught by the `except` clause and yields
`some false`, leaving whatever writes already happened in place. -/
def fetch_exchange_rates (resp : FetchResponse) (now : ℤ) (r : Rates) :
    Option Bool × Rates :=
  match resp with
  | .netError => (some false, r)
  | .httpResponse status body =>
    if status = 200 then
      match body.valute with
      | none => (some false, r)
      | some v =>
        match lookupValute v "USD" with
        | some e =>
          match e.value with
          | none => (some false, r)
          | some qU => fetchBynStep v now { r with usd := qU }
        | none => fetchBynStep v now r
    else (none, r)

/-! ## Categories -/

/-- `EXPENSE_CATEGORIES` as an ordered `(emoji, name)` list. -/
def EXPENSE_CATEGORIES : List (String × String) :=
  [("🍽️", "Рестораны и кафе"), ("🛒", "Продукты"), ("🚕", "Такси"),
   ("🎉", "Развлечения"), ("📱", "Подписки"), ("🛍️", "Покупки"),
   ("🚗", "Автомобиль"), ("🏠", "Коммунальные"), ("💊", "Здоровье"), ("💰", "Другое")]

/-- `INCOME_CATEGORIES`. -/
def INCOME_CATEGORIES : List (String × String) :=
  [("💼", "Зарплата"), ("🎨", "Фриланс"), ("💸", "Крипта"),
   ("🏠", "Аренда/Гараж"), ("🎁", "Возврат долга"), ("📊", "Инвестиции"), ("💰", "Другое")]

/-- The rendered `"{emoji} {name}"` strings a category step validates
against. -/
def categoryStrings (cats : List (String × String)) : List String :=
  cats.map (fun p => p.1 ++ " " ++ p.2)

/-! ## Dialog sessions

aiogram's `MemoryStorage` keeps, per user, an FSM state and a data dict.
`FSMState.idle` is the `None` state; `SessData` is the data dict with one
optional slot per key ever written by the source. -/

inductive FSMState where
  | idle
  | addExpenseAmount
  | addExpenseCategory
  | addIncomeAmount
  | addIncomeCategory
  | convertAmount
  | convertFromCurrency
  | convertToCurrency
  | setBudgetCategory
  | setBudgetAmount
  | createGoalName
  | createGoalAmount
  | createGoalDeadline
  | editExpenseNewAmount
  | editExpenseNewCategory
  | editIncomeNewAmount
  | editIncomeNewCategory
deriving DecidableEq

structure SessData where
  amount : Option PyFloat := none
  category : Option String := none
  name : Option String := none
  from_currency : Option String := none
  expense_id : Option ℤ := none
  income_id : Option ℤ := none
  new_amount : Option PyFloat := none
deriving DecidableEq

structure Session where
  fsm : FSMState
  data : SessData
deriving DecidableEq

/-- The state after `state.clear()`: `None` state, empty data. -/
def clearedSession : Session := ⟨.idle, {}⟩

/-- Process-wide mutable state touched by the message handlers, plus the
invoking owner's session. -/
structure World where
  rates : Rates
  db : DB
  session : Session
deriving DecidableEq

/-- Abstract tags for the `message.answer` calls a handler makes; only
the tags the claims inspect carry payloads. -/
inductive Msg where
  | greet
  | ratesInfo
  | balanceInfo
  | budgetsMenu
  | setBudgetPrompt
  | cancelledMsg
  | budgetCategoryOk
  | errCategory
  | errNumber
  | budgetSaved
  | goalsInfo
  | goalNamePrompt
  | goalAmountPrompt
  | goalCreated
  | expenseAmountPrompt
  | expenseCategoryPrompt
  | expenseAdded (budget_check : Bool × PyFloat × PyFloat)
  | incomeAmountPrompt
  | incomeCategoryPrompt
  | incomeAdded
  | convertPrompt
  | convertFromPrompt
  | statsMenu
  | backToMain
  | todayStats
  | weekStats
  | monthStats
  | historyMenu
  | expensesHistory
  | incomeHistory
  | editExpenseCategoryPrompt
  | expenseUpdated
  | updateFailed
  | editIncomeCategoryPrompt
  | incomeUpdated
deriving DecidableEq

/-! ## Message handlers

One definition per `@dp.message` handler, in source order.  Each maps the
pre-handler `World` to the post-handler `World` and the list of answers
sent.  A `KeyError` on the FSM data dict (a slot read that the flow never
leaves unset) aborts the handler uncaught: state unchanged, nothing sent. -/

def cmd_start (w : World) : World × List Msg := (w, [.greet])

def cmd_rates (w : World) : World × List Msg := (w, [.ratesInfo])

def cmd_balance (w : World) : World × List Msg := (w, [.balanceInfo])

/-- First handler bound to `/setbudget` (and to the `🎯 Бюджеты` button):
read-only budgets listing. -/
def cmd_budgets_menu (w : World) : World × List Msg := (w, [.budgetsMenu])

/-- Second handler bound to `/setbudget`: would start the SetBudget
wizard (`state.set_state` keeps the existing data dict). -/
def cmd_set_budget (w : World) : World × List Msg :=
  ({ w with session := ⟨.setBudgetCategory, w.session.data⟩ }, [.setBudgetPrompt])

def cancel_budget (w : World) : World × List Msg :=
  ({ w with session := clearedSession }, [.cancelledMsg])

def process_budget_category (t : String) (w : World) : World × List Msg :=
  if t ∈ categoryStrings EXPENSE_CATEGORIES then
    ({ w with session := ⟨.setBudgetAmount, { w.session.data with category := some t }⟩ },
     [.budgetCategoryOk])
  else (w, [.errCategory])

def process_budget_amount (c : Clock) (uid : ℤ) (t : String) (w : World) : World × List Msg :=
  match parsedAmount t with
  | none => (w, [.errNumber])
  | some amount =>
    match w.session.data.category with
    | none => (w, [])
    | some category =>
      ({ w with db := set_budget c w.db uid category amount, session := clearedSession },
       [.budgetSaved])

def cmd_goals (w : World) : World × List Msg := (w, [.goalsInfo])

def cmd_create_goal (w : World) : World × List Msg :=
  ({ w with session := ⟨.createGoalName, w.session.data⟩ }, [.goalNamePrompt])

/-- The goal-name step accepts any text as the name. -/
def process_goal_name (t : String) (w : World) : World × List Msg :=
  ({ w with session := ⟨.createGoalAmount, { w.session.data with name := some t }⟩ },
   [.goalAmountPrompt])

def process_goal_amount (uid : ℤ) (t : String) (w : World) : World × List Msg :=
  match parsedAmount t with
  | none => (w, [.errNumber])
  | some amount =>
    match w.session.data.name with
    | none => (w, [])
    | some n =>
      ({ w with db := create_goal w.db uid n amount none, session := clearedSession },
       [.goalCreated])

def cmd_add_expense (w : World) : World × List Msg :=
  ({ w with session := ⟨.addExpenseAmount, w.session.data⟩ }, [.expenseAmountPrompt])

def process_expense_amount (t : String) (w : World) : World × List Msg :=
  match parsedAmount t with
  | none => (w, [.errNumber])
  | some amount =>
    ({ w with session := ⟨.addExpenseCategory, { w.session.data with amount := some amount }⟩ },
     [.expenseCategoryPrompt])

def cancel_expense (w : World) : World × List Msg :=
  ({ w with session := clearedSession }, [.cancelledMsg])

def process_expense_category (c : Clock) (uid : ℤ) (t : String) (w : World) : World × List Msg :=
  if t ∈ categoryStrings EXPENSE_CATEGORIES then
    match w.session.data.amount with
    | none => (w, [])
    | some amount =>
      match add_expense_to_db w.rates c w.db uid amount t with
      | none => (w, [])
      | some res =>
        let warn := check_budget_exceeded c res.2 uid t
        ({ w with db := res.2, session := clearedSession }, [.expenseAdded warn])
  else (w, [.errCategory])

def cmd_add_income (w : World) : World × List Msg :=
  ({ w with session := ⟨.addIncomeAmount, w.session.data⟩ }, [.incomeAmountPrompt])

def process_income_amount (t : String) (w : World) : World × List Msg :=
  match parsedAmount t with
  | none => (w, [.errNumber])
  | some amount =>
    ({ w with session := ⟨.addIncomeCategory, { w.session.data with amount := some amount }⟩ },
     [.incomeCategoryPrompt])

def cancel_income (w : World) : World × List Msg :=
  ({ w with session := clearedSession }, [.cancelledMsg])

def process_income_category (c : Clock) (uid : ℤ) (t : String) (w : World) : World × List Msg :=
  if t ∈ categoryStrings INCOME_CATEGORIES then
    match w.session.data.amount with
    | none => (w, [])
    | some amount =>
      match add_income_to_db w.rates c w.db uid amount t with
      | none => (w, [])
      | some res =>
        ({ w with db := res.2, session := clearedSession }, [.incomeAdded])
  else (w, [.errCategory])

def cmd_convert (w : World) : World × List Msg :=
  ({ w with session := ⟨.convertAmount, w.session.data⟩ }, [.convertPrompt])

def convert_amount (t : String) (w : World) : World × List Msg :=
  match parsedAmount t with
  | none => (w, [.errNumber])
  | some amount =>
    ({ w with session := ⟨.convertFromCurrency, { w.session.data with amount := some amount }⟩ },
     [.convertFromPrompt])

def cmd_stats_menu (w : World) : World × List Msg := (w, [.statsMenu])

def cmd_back (w : World) : World × List Msg := (w, [.backToMain])

def cmd_today (w : World) : World × List Msg := (w, [.todayStats])

def cmd_week (w : World) : World × List Msg := (w, [.weekStats])

def cmd_month (w : World) : World × List Msg := (w, [.monthStats])

def cmd_history (w : World) : World × List Msg := (w, [.historyMenu])

def cmd_expenses_history (w : World) : World × List Msg := (w, [.expensesHistory])

def cmd_income_history (w : World) : World × List Msg := (w, [.incomeHistory])

def process_edit_expense_amount (t : String) (w : World) : World × List Msg :=
  match parsedAmount t with
  | none => (w, [.errNumber])
  | some amount =>
    ({ w with session := ⟨.editExpenseNewCategory, { w.session.data with new_amount := some amount }⟩ },
     [.editExpenseCategoryPrompt])

def cancel_edit_expense (w : World) : World × List Msg :=
  ({ w with session := clearedSession }, [.cancelledMsg])

def process_edit_expense_category (uid : ℤ) (t : String) (w : World) : World × List Msg :=
  if t ∈ categoryStrings EXPENSE_CATEGORIES then
    match w.session.data.expense_id, w.session.data.new_amount with
    | some i, some a =>
      let res := update_expense w.rates w.db i uid a t
      if res.1 = true then
        ({ w with db := res.2, session := clearedSession }, [.expenseUpdated])
      else
        ({ w with db := res.2, session := clearedSession }, [.updateFailed])
    | _, _ => (w, [])
  else (w, [.errCategory])

def process_edit_income_amount (t : String) (w : World) : World × List Msg :=
  match parsedAmount t with
  | none => (w, [.errNumber])
  | some amount =>
    ({ w with session := ⟨.editIncomeNewCategory, { w.session.data with new_amount := some amount }⟩ },
     [.editIncomeCategoryPrompt])

def cancel_edit_income (w : World) : World × List Msg :=
  ({ w with session := clearedSession }, [.cancelledMsg])

def process_edit_income_category (uid : ℤ) (t : String) (w : World) : World × List Msg :=
  if t ∈ categoryStrings INCOME_CATEGORIES then
    match w.session.data.income_id, w.session.data.new_amount with
    | some i, some a =>
      let res := update_income w.rates w.db i uid a t
      if res.1 = true then
        ({ w with db := res.2, session := clearedSession }, [.incomeUpdated])
      else
        ({ w with db := res.2, session := clearedSession }, [.updateFailed])
    | _, _ => (w, [])
  else (w, [.errCategory])

/-! ## Dispatch

aiogram 3 delivers a message to the first handler (in registration
order) whose filters all pass; handlers without a state filter match in
any FSM state.  For a function with two `@dp.message` decorators the
lower decorator registers first; both registrations target the same
handler, so they are merged into one disjunctive condition below. -/

/-- The command token of a message: its first whitespace-delimited word.
`Command("x")` matches messages whose token is `/x`. -/
def firstToken (t : String) : String := ⟨t.data.takeWhile (fun c => c ≠ ' ')⟩

/-- The aiogram `Command(name)` filter. -/
abbrev commandIs (t name : String) : Prop := firstToken t = "/" ++ name

/-- One inbound text message from owner `uid`, dispatched through the
registered `@dp.message` handlers in source registration order
(callback-query handlers are separate and unaffected by texts). -/
def handleMessage (c : Clock) (w : World) (uid : ℤ) (t : String) : World × List Msg :=
  if commandIs t "start" then cmd_start w
  else if t = "💱 Курсы" ∨ commandIs t "rates" then cmd_rates w
  else if t = "💰 Баланс" ∨ commandIs t "balance" then cmd_balance w
  else if t = "🎯 Бюджеты" ∨ commandIs t "setbudget" then cmd_budgets_menu w
  else if commandIs t "setbudget" then cmd_set_budget w
  else if w.session.fsm = .setBudgetCategory ∧ t = "❌ Отмена" then cancel_budget w
  else if w.session.fsm = .setBudgetCategory then process_budget_category t w
  else if w.session.fsm = .setBudgetAmount then process_budget_amount c uid t w
  else if t = "⭐ Цели" ∨ commandIs t "goals" then cmd_goals w
  else if commandIs t "creategoal" then cmd_create_goal w
  else if w.session.fsm = .createGoalName then process_goal_name t w
  else if w.session.fsm = .createGoalAmount then process_goal_amount uid t w
  else if t = "➕ Расход" then cmd_add_expense w
  else if w.session.fsm = .addExpenseAmount then process_expense_amount t w
  else if w.session.fsm = .addExpenseCategory ∧ t = "❌ Отмена" then cancel_expense w
  else if w.session.fsm = .addExpenseCategory then process_expense_category c uid t w
  else if t = "💵 Доход" then cmd_add_income w
  else if w.session.fsm = .addIncomeAmount then process_income_amount t w
  else if w.session.fsm = .addIncomeCategory ∧ t = "❌ Отмена" then cancel_income w
  else if w.session.fsm = .addIncomeCategory then process_income_category c uid t w
  else if t = "🔄 Конвертер" ∨ commandIs t "convert" then cmd_convert w
  else if w.session.fsm = .convertAmount then convert_amount t w
  else if t = "📊 Статистика" then cmd_stats_menu w
  else if t = "◀️ Назад" then cmd_back w
  else if t = "📊 Сегодня" then cmd_today w
  else if t = "📅 Неделя" then cmd_week w
  else if t = "📆 Месяц" then cmd_month w
  else if t = "📝 История" ∨ commandIs t "history" then cmd_history w
  else if t = "📝 Расходы" then cmd_expenses_history w
  else if t = "📝 Доходы" then cmd_income_history w
  else if w.session.fsm = .editExpenseNewAmount then process_edit_expense_amount t w
  else if w.session.fsm = .editExpenseNewCategory ∧ t = "❌ Отмена" then cancel_edit_expense w
  else if w.session.fsm = .editExpenseNewCategory then process_edit_expense_category uid t w
  else if w.session.fsm = .editIncomeNewAmount then process_edit_income_amount t w
  else if w.session.fsm = .editIncomeNewCategory ∧ t = "❌ Отмена" then cancel_edit_income w
  else if w.session.fsm = .editIncomeNewCategory then process_edit_income_category uid t w
  else (w, [])

/-! ## Concrete sample values shared by the claim theorems -/

/-- The startup rate snapshot: `USD=77.52`, `BYN=26.73`, never updated. -/
def rates0 : Rates := ⟨mkRat 7752 100, mkRat 2673 100, none⟩

def clock0 : Clock := ⟨10, 1, 2026, 1⟩

def world0 : World := ⟨rates0, emptyDB, ⟨.idle, {}⟩⟩

/-- The spec's add-expense example, step 1: press `➕ Расход`. -/
def exW1 : World := (handleMessage clock0 world0 1 "➕ Расход").1

/-- Step 2: send the amount `"1 250,50"`. -/
def exW2 : World := (handleMessage clock0 exW1 1 "1 250,50").1

/-- Step 3: choose the category `🛒 Продукты`, committing the record. -/
def exW3 : World := (handleMessage clock0 exW2 1 "🛒 Продукты").1

/-! ## C1 — wizard cancellation -/

/-- Claim C1 counterexample: the designated cancellation input does not
clear the session on every non-terminal step.  At the add-expense
*amount* step `❌ Отмена` is parsed as a (malformed) number: the session
stays at that step and the bot answers the invalid-number error; and at
the create-goal *name* step the cancellation text is even accepted as
the goal's name, advancing the wizard with the field retained. -/
theorem C1_cancel_counterexample :
    ((handleMessage clock0 ⟨rates0, emptyDB, ⟨.addExpenseAmount, {}⟩⟩ 1 "❌ Отмена").1.session =
      ⟨.addExpenseAmount, {}⟩) ∧
    (handleMessage clock0 ⟨rates0, emptyDB, ⟨.addExpenseAmount, {}⟩⟩ 1 "❌ Отмена").2 =
      [.errNumber] ∧
    ((handleMessage clock0 ⟨rates0, emptyDB, ⟨.createGoalName, {}⟩⟩ 1 "❌ Отмена").1.session =
      ⟨.createGoalAmount, { name := some "❌ Отмена" }⟩) := by
  decide

/-- Claim C1 (corrected): `❌ Отмена` clears the session — wholesale, and
with the database untouched — exactly at the five category-selection
steps that register a cancel handler (add-expense, add-income,
set-budget, edit-expense, edit-income); after the clear, any independent
wizard start for the owner begins at that wizard's first step with an
empty data dict, so no field of the cancelled session leaks. -/
theorem C1_cancel_on_category_steps (c : Clock) (r : Rates) (db : DB) (d : SessData)
    (uid : ℤ) (st : FSMState)
    (h : st = .addExpenseCategory ∨ st = .addIncomeCategory ∨ st = .setBudgetCategory ∨
      st = .editExpenseNewCategory ∨ st = .editIncomeNewCategory) :
    handleMessage c ⟨r, db, ⟨st, d⟩⟩ uid "❌ Отмена" =
      (⟨r, db, clearedSession⟩, [.cancelledMsg]) ∧
    ∀ w : World, w.session = clearedSession →
      (handleMessage c w uid "➕ Расход").1.session = ⟨.addExpenseAmount, {}⟩ ∧
      (handleMessage c w uid "💵 Доход").1.session = ⟨.addIncomeAmount, {}⟩ ∧
      (handleMessage c w uid "/creategoal").1.session = ⟨.createGoalName, {}⟩ ∧
      (handleMessage c w uid "/convert").1.session = ⟨.convertAmount, {}⟩ := by
  constructor
  · rcases h with rfl | rfl | rfl | rfl | rfl <;> rfl
  · rintro ⟨r', db', s'⟩ rfl
    exact ⟨rfl, rfl, rfl, rfl⟩

/-- Witness for C1: cancelling at the add-expense category step with a
collected amount clears everything, and a fresh add-expense start then
begins at the amount step with empty data. -/
theorem C1_cancel_witness :
    handleMessage clock0
        ⟨rates0, emptyDB, ⟨.addExpenseCategory, { amount := some (.num (mkRat 5 1)) }⟩⟩
        1 "❌ Отмена" =
      (⟨rates0, emptyDB, clearedSession⟩, [.cancelledMsg]) ∧
    (handleMessage clock0 ⟨rates0, emptyDB, clearedSession⟩ 1 "➕ Расход").1.session =
      ⟨.addExpenseAmount, {}⟩ := by
  have h := C1_cancel_on_category_steps clock0 rates0 emptyDB
    { amount := some (.num (mkRat 5 1)) } 1 .addExpenseCategory (Or.inl rfl)
  exact ⟨h.1, (h.2 ⟨rates0, emptyDB, clearedSession⟩ rfl).1⟩

/-! ## C2 — the shadowed `/setbudget` handler -/

/-- Claim C2 (confirmed): both `cmd_budgets_menu` and `cmd_set_budget`
are bound to the `/setbudget` command, the menu handler first; dispatch
delivers the event to the first match, so every `/setbudget` command —
whatever the FSM state — produces exactly the budgets-menu answer, the
whole world (session included) is unchanged, and `cmd_set_budget` is
never invoked: no session ever enters `SetBudget.waiting_for_category`
via the command. -/
theorem C2_setbudget_shadowed (c : Clock) (w : World) (uid : ℤ) (t : String)
    (h : commandIs t "setbudget") :
    handleMessage c w uid t = (w, [.budgetsMenu]) := by
  have htok : firstToken t = "/setbudget" := h
  have h1 : t ≠ "💱 Курсы" := by rintro rfl; exact absurd htok (by decide)
  have h2 : t ≠ "💰 Баланс" := by rintro rfl; exact absurd htok (by decide)
  simp only [handleMessage, commandIs, htok, h1, h2,
    eq_false (by decide : ¬(("/setbudget" : String) = "/" ++ "start")),
    eq_false (by decide : ¬(("/setbudget" : String) = "/" ++ "rates")),
    eq_false (by decide : ¬(("/setbudget" : String) = "/" ++ "balance")),
    eq_true (by decide : (("/setbudget" : String) = "/" ++ "setbudget")),
    or_false, false_or, or_true, if_true, if_false]
  rfl

/-- Witness for C2 at the literal command. -/
theorem C2_setbudget_witness :
    commandIs "/setbudget" "setbudget" ∧
    handleMessage clock0 world0 1 "/setbudget" = (world0, [.budgetsMenu]) :=
  ⟨by decide, C2_setbudget_shadowed clock0 world0 1 "/setbudget" (by decide)⟩

/-! ## C3 — the rate refresh is not atomic -/

/-- Claim C3 counterexample: a 200 response whose `Valute` has a valid
`USD` entry but a `BYN` entry without a readable `Value` makes
`fetch_exchange_rates` report failure *and* leave the USD rate already
overwritten — a partially updated snapshot; and a non-200 response
returns `None`, not a boolean. -/
theorem C3_partial_update_counterexample :
    fetch_exchange_rates
        (.httpResponse 200 ⟨some [("USD", ⟨some (mkRat 80 1)⟩), ("BYN", ⟨none⟩)]⟩)
        5 rates0 =
      (some false, ⟨mkRat 80 1, mkRat 2673 100, none⟩) ∧
    (⟨mkRat 80 1, mkRat 2673 100, none⟩ : Rates) ≠ rates0 ∧
    fetch_exchange_rates (.httpResponse 503 ⟨none⟩) 5 rates0 = (none, rates0) := by
  decide

/-- Claim C3 (corrected): the snapshot survives untouched exactly on the
failures that happen before any write — network error (returns `False`),
non-200 status (returns `None`, not a boolean), missing `Valute` key and
malformed `USD` entry (both `False`).  A valid `USD` entry followed by a
malformed `BYN` entry reports failure but leaves the USD rate already
replaced, so the snapshot is not updated atomically. -/
theorem C3_fetch_behavior (r : Rates) (now : ℤ) :
    fetch_exchange_rates .netError now r = (some false, r) ∧
    (∀ s : ℕ, ∀ body : FetchBody, s ≠ 200 →
      fetch_exchange_rates (.httpResponse s body) now r = (none, r)) ∧
    fetch_exchange_rates (.httpResponse 200 ⟨none⟩) now r = (some false, r) ∧
    (∀ v : List (String × ValuteEntry), ∀ e : ValuteEntry,
      lookupValute v "USD" = some e → e.value = none →
      fetch_exchange_rates (.httpResponse 200 ⟨some v⟩) now r = (some false, r)) ∧
    (∀ v : List (String × ValuteEntry), ∀ e eb : ValuteEntry, ∀ qU : ℚ,
      lookupValute v "USD" = some e → e.value = some qU →
      lookupValute v "BYN" = some eb → eb.value = none →
      fetch_exchange_rates (.httpResponse 200 ⟨some v⟩) now r =
        (some false, { r with usd := qU })) := by
  refine ⟨rfl, ?_, rfl, ?_, ?_⟩
  · intro s body hs
    simp [fetch_exchange_rates, hs]
  · intro v e hU hUv
    simp [fetch_exchange_rates, hU, hUv]
  · intro v e eb qU hU hUv hB hBv
    simp [fetch_exchange_rates, fetchBynStep, hU, hUv, hB, hBv]

/-- Witness for C3's behaviour theorem. -/
theorem C3_fetch_witness :
    fetch_exchange_rates .netError 5 rates0 = (some false, rates0) ∧
    fetch_exchange_rates (.httpResponse 404 ⟨none⟩) 5 rates0 = (none, rates0) := by
  have h := C3_fetch_behavior rates0 5
  exact ⟨h.1, h.2.1 404 ⟨none⟩ (by decide)⟩

/-! ## List helpers -/

theorem list_map_self {α : Type} (l : List α) (f : α → α) (h : ∀ x ∈ l, f x = x) :
    l.map f = l := by
  induction l with
  | nil => rfl
  | cons x xs ih =>
    simp only [List.map_cons]
    rw [h x (List.mem_cons_self x xs), ih (fun y hy => h y (List.mem_cons_of_mem x hy))]

theorem list_filter_self {α : Type} (l : List α) (p : α → Bool) (h : ∀ x ∈ l, p x = true) :
    l.filter p = l := by
  induction l with
  | nil => rfl
  | cons x xs ih =>
    rw [List.filter_cons_of_pos (h x (List.mem_cons_self x xs)),
        ih (fun y hy => h y (List.mem_cons_of_mem x hy))]

theorem list_any_false {α : Type} (l : List α) (p : α → Bool) (h : ∀ x ∈ l, p x = false) :
    l.any p = false := by
  induction l with
  | nil => rfl
  | cons x xs ih =>
    simp only [List.any_cons, h x (List.mem_cons_self x xs), Bool.false_or]
    exact ih (fun y hy => h y (List.mem_cons_of_mem x hy))

theorem list_filter_congr_mem {α : Type} (l : List α) (p q : α → Bool)
    (h : ∀ x ∈ l, p x = q x) : l.filter p = l.filter q := by
  induction l with
  | nil => rfl
  | cons x xs ih =>
    have ih2 := ih (fun y hy => h y (List.mem_cons_of_mem x hy))
    simp only [List.filter_cons, h x (List.mem_cons_self x xs), ih2]

/-! ## C4 — the stored secondary amount -/

/-- Claim C4 (confirmed): inserts return and store
`round(amount_rub / EXCHANGE_RATES["USD"], 2)` computed from the rate
snapshot passed at the moment of the call, edits store the same value
for every row they touch, and the spec's `"1 250,50"` example yields a
record `(1250.50, 16.13)` whose one-day sums are `(1250.50, 16.13)`
(`mkRat 25010 20 = 1250.50`, `mkRat 1613 100 = 16.13`). -/
theorem C4_secondary_snapshot (rates : Rates) (c : Clock) (db : DB) (uid : ℤ)
    (a : PyFloat) (cat : String) (rid : ℤ) :
    (∀ usd : PyFloat, ∀ db2 : DB,
      add_expense_to_db rates c db uid a cat = some (usd, db2) →
        usd = pyRound2 (pyDiv a (.num rates.usd))) ∧
    (∀ usd : PyFloat, ∀ db2 : DB,
      add_income_to_db rates c db uid a cat = some (usd, db2) →
        usd = pyRound2 (pyDiv a (.num rates.usd))) ∧
    (∀ usd : PyFloat, ∀ db2 : DB,
      add_expense_to_db rates c db uid a cat = some (usd, db2) →
      ∀ row ∈ db2.expenses,
        row ∈ db.expenses ∨
          (row.amount_rub = a ∧ row.amount_usd = pyRound2 (pyDiv a (.num rates.usd)))) ∧
    (∀ row ∈ (update_expense rates db rid uid a cat).2.expenses,
      row ∈ db.expenses ∨
        (row.amount_rub = a ∧ row.amount_usd = pyRound2 (pyDiv a (.num rates.usd)))) ∧
    (∀ row ∈ (update_income rates db rid uid a cat).2.income,
      row ∈ db.income ∨
        (row.amount_rub = a ∧ row.amount_usd = pyRound2 (pyDiv a (.num rates.usd)))) ∧
    exW3.db.expenses =
      [⟨1, 1, clock0.today, .num (mkRat 25010 20), .num (mkRat 1613 100), "🛒 Продукты"⟩] ∧
    get_total_expenses clock0 exW3.db 1 1 = (.num (mkRat 25010 20), .num (mkRat 1613 100)) := by
  refine ⟨?_, ?_, ?_, ?_, ?_, by decide, by decide⟩
  · intro usd db2 h
    simp only [add_expense_to_db] at h
    split at h
    · exact absurd h (by simp)
    · simp only [Option.some.injEq, Prod.mk.injEq] at h
      exact h.1.symm
  · intro usd db2 h
    simp only [add_income_to_db] at h
    split at h
    · exact absurd h (by simp)
    · simp only [Option.some.injEq, Prod.mk.injEq] at h
      exact h.1.symm
  · intro usd db2 h row hrow
    simp only [add_expense_to_db] at h
    split at h
    · exact absurd h (by simp)
    · simp only [Option.some.injEq, Prod.mk.injEq] at h
      rw [← h.2] at hrow
      have hrow2 : row ∈ db.expenses ++
          [⟨db.nextExpenseId, uid, c.today, a, pyRound2 (pyDiv a (.num rates.usd)), cat⟩] := hrow
      simp only [List.mem_append, List.mem_singleton] at hrow2
      rcases hrow2 with hm | rfl
      · exact Or.inl hm
      · exact Or.inr ⟨rfl, rfl⟩
  · intro row hrow
    simp only [update_expense, List.mem_map] at hrow
    obtain ⟨r0, hr0, rfl⟩ := hrow
    by_cases hc : r0.id = rid ∧ r0.user_id = uid
    · rw [if_pos hc]
      exact Or.inr ⟨rfl, rfl⟩
    · rw [if_neg hc]
      exact Or.inl hr0
  · intro row hrow
    simp only [update_income, List.mem_map] at hrow
    obtain ⟨r0, hr0, rfl⟩ := hrow
    by_cases hc : r0.id = rid ∧ r0.user_id = uid
    · rw [if_pos hc]
      exact Or.inr ⟨rfl, rfl⟩
    · rw [if_neg hc]
      exact Or.inl hr0

/-- Witness for C4: `100₽` at rate `77.52` is stored as `$1.29`. -/
theorem C4_secondary_witness :
    add_expense_to_db rates0 clock0 emptyDB 1 (.num (mkRat 100 1)) "💰 Другое" =
      some (.num (mkRat 129 100),
        ⟨[⟨1, 1, 10, .num (mkRat 100 1), .num (mkRat 129 100), "💰 Другое"⟩],
         [], [], [], 2, 1⟩) ∧
    PyFloat.num (mkRat 129 100) =
      pyRound2 (pyDiv (.num (mkRat 100 1)) (.num rates0.usd)) := by
  refine ⟨by decide, ?_⟩
  exact (C4_secondary_snapshot rates0 clock0 emptyDB 1 (.num (mkRat 100 1)) "💰 Другое" 1).1
    (.num (mkRat 129 100))
    ⟨[⟨1, 1, 10, .num (mkRat 100 1), .num (mkRat 129 100), "💰 Другое"⟩], [], [], [], 2, 1⟩
    (by decide)

/-! ## C5 — the budget threshold check -/

/-- The ratio form of the threshold test: for a positive finite limit,
the source's `spent / budget * 100 >= 80` coincides with the spec's
`spent / limit >= 0.80` under the same float semantics
(`mkRat 4 5 = 0.80`). -/
theorem threshold_ratio_form (s : PyFloat) (l : ℚ) (hl : 0 < l) :
    pyGe (pyMul (pyDiv s (.num l)) (.num 100)) (.num 80) =
      pyGe (pyDiv s (.num l)) (.num (mkRat 4 5)) := by
  have hl0 : l ≠ 0 := ne_of_gt hl
  have h45 : (mkRat 4 5 : ℚ) = 4 / 5 := by
    rw [Rat.mkRat_eq_div]; norm_num
  cases s with
  | num p =>
    simp only [pyDiv, if_neg hl0, pyMul, pyGe, pyLe, qmul_eq, qdiv_eq, h45]
    rw [decide_eq_decide]
    constructor <;> intro h2 <;> linarith
  | nan => rfl
  | inf =>
    simp only [pyDiv, if_neg (not_lt.mpr hl.le), pyMul, pyGe, pyLe]
    norm_num
  | ninf =>
    simp only [pyDiv, if_neg (not_lt.mpr hl.le), pyMul, pyGe, pyLe]
    norm_num

/-- Claim C5 (confirmed, for the limits the program can store — the
set-budget wizard only accepts positive finite amounts): with no budget
row for the owner, category and current month/year the check returns
`(false, 0, 0)`; with a stored positive limit `l` it returns
`(spent/l ≥ 0.80, spent, l)` where `spent` is the owner's current-month
expense sum in that category. -/
theorem C5_check_threshold (c : Clock) (db : DB) (uid : ℤ) (cat : String) :
    (get_budget c db uid cat = none →
      check_budget_exceeded c db uid cat = (false, .num 0, .num 0)) ∧
    (∀ l : ℚ, 0 < l → get_budget c db uid cat = some (.num l) →
      check_budget_exceeded c db uid cat =
        (pyGe (pyDiv (monthSpent c db uid cat) (.num l)) (.num (mkRat 4 5)),
         monthSpent c db uid cat, .num l)) := by
  constructor
  · intro h
    rw [check_budget_exceeded, h]
  · intro l hl h
    have hl0 : l ≠ 0 := ne_of_gt hl
    have ht : pyTruthy (.num l) = true := by simp [pyTruthy, hl0]
    have hlt : pyLt (.num 0) (.num l) = true := by simp [pyLt, hl]
    simp [check_budget_exceeded, h, ht, hlt, threshold_ratio_form _ l hl]

/-- C5 witness: the spec's example — limit `1000`, three expenses of
`300` this month — alerts with `(true, 900, 1000)`. -/
def db5 : DB :=
  ⟨[⟨1, 7, 5, .num (mkRat 300 1), .num (mkRat 10 1), "🚕 Такси"⟩,
    ⟨2, 7, 6, .num (mkRat 300 1), .num (mkRat 10 1), "🚕 Такси"⟩,
    ⟨3, 7, 7, .num (mkRat 300 1), .num (mkRat 10 1), "🚕 Такси"⟩],
   [], [⟨7, "🚕 Такси", .num (mkRat 1000 1), 1, 2026⟩], [], 4, 1⟩

theorem C5_check_witness :
    get_budget clock0 db5 7 "🚕 Такси" = some (.num (mkRat 1000 1)) ∧
    check_budget_exceeded clock0 db5 7 "🚕 Такси" =
      (true, .num (mkRat 900 1), .num (mkRat 1000 1)) := by
  refine ⟨by decide, ?_⟩
  have h := (C5_check_threshold clock0 db5 7 "🚕 Такси").2 (mkRat 1000 1) (by decide) (by decide)
  rw [h]; decide

/-! ## C6 — owner-scoped edit and delete -/

/-- Claim C6 (confirmed): when every row carrying the target id belongs
to owner `X` (ids are unique in the sqlite tables) and `Y ≠ X`, edit and
delete invoked as `Y` return `false` and leave every row unchanged; in
general each returns `true` exactly when some row matches `(id, owner)`
— the `WHERE id = ? AND user_id = ?` clause is the sole access control. -/
theorem C6_owner_scoping (rates : Rates) (db : DB) (rid X Y : ℤ) (a : PyFloat) (cat : String)
    (hE : ∀ r ∈ db.expenses, r.id = rid → r.user_id = X)
    (hI : ∀ r ∈ db.income, r.id = rid → r.user_id = X)
    (hXY : Y ≠ X) :
    update_expense rates db rid Y a cat = (false, db) ∧
    delete_expense db rid Y = (false, db) ∧
    update_income rates db rid Y a cat = (false, db) ∧
    delete_income db rid Y = (false, db) ∧
    (∀ u : ℤ, (update_expense rates db rid u a cat).1 = true ↔
      ∃ r ∈ db.expenses, r.id = rid ∧ r.user_id = u) ∧
    (∀ u : ℤ, (delete_expense db rid u).1 = true ↔
      ∃ r ∈ db.expenses, r.id = rid ∧ r.user_id = u) ∧
    (∀ u : ℤ, (update_income rates db rid u a cat).1 = true ↔
      ∃ r ∈ db.income, r.id = rid ∧ r.user_id = u) ∧
    (∀ u : ℤ, (delete_income db rid u).1 = true ↔
      ∃ r ∈ db.income, r.id = rid ∧ r.user_id = u) := by
  have hnotE : ∀ r ∈ db.expenses, ¬(r.id = rid ∧ r.user_id = Y) := by
    rintro r hr ⟨h1, h2⟩
    have hx := hE r hr h1
    rw [h2] at hx
    exact hXY hx
  have hnotI : ∀ r ∈ db.income, ¬(r.id = rid ∧ r.user_id = Y) := by
    rintro r hr ⟨h1, h2⟩
    have hx := hI r hr h1
    rw [h2] at hx
    exact hXY hx
  refine ⟨?_, ?_, ?_, ?_, ?_, ?_, ?_, ?_⟩
  · have hmap : db.expenses.map
        (fun r => if r.id = rid ∧ r.user_id = Y then
          { r with amount_rub := a, amount_usd := pyRound2 (pyDiv a (.num rates.usd)),
                   category := cat } else r) = db.expenses :=
      list_map_self _ _ (fun r hr => if_neg (hnotE r hr))
    have hany : db.expenses.any (fun r => decide (r.id = rid ∧ r.user_id = Y)) = false :=
      list_any_false _ _ (fun r hr => decide_eq_false (hnotE r hr))
    simp only [update_expense]
    rw [hany, hmap]
  · have hfil : db.expenses.filter (fun r => decide (¬(r.id = rid ∧ r.user_id = Y))) =
        db.expenses :=
      list_filter_self _ _ (fun r hr => decide_eq_true (hnotE r hr))
    have hany : db.expenses.any (fun r => decide (r.id = rid ∧ r.user_id = Y)) = false :=
      list_any_false _ _ (fun r hr => decide_eq_false (hnotE r hr))
    simp only [delete_expense]
    rw [hany, hfil]
  · have hmap : db.income.map
        (fun r => if r.id = rid ∧ r.user_id = Y then
          { r with amount_rub := a, amount_usd := pyRound2 (pyDiv a (.num rates.usd)),
                   category := cat } else r) = db.income :=
      list_map_self _ _ (fun r hr => if_neg (hnotI r hr))
    have hany : db.income.any (fun r => decide (r.id = rid ∧ r.user_id = Y)) = false :=
      list_any_false _ _ (fun r hr => decide_eq_false (hnotI r hr))
    simp only [update_income]
    rw [hany, hmap]
  · have hfil : db.income.filter (fun r => decide (¬(r.id = rid ∧ r.user_id = Y))) =
        db.income :=
      list_filter_self _ _ (fun r hr => decide_eq_true (hnotI r hr))
    have hany : db.income.any (fun r => decide (r.id = rid ∧ r.user_id = Y)) = false :=
      list_any_false _ _ (fun r hr => decide_eq_false (hnotI r hr))
    simp only [delete_income]
    rw [hany, hfil]
  · intro u
    simp [update_expense, List.any_eq_true]
  · intro u
    simp [delete_expense, List.any_eq_true]
  · intro u
    simp [update_income, List.any_eq_true]
  · intro u
    simp [delete_income, List.any_eq_true]

/-- C6 witness: user 2 can neither edit nor delete user 1's record;
user 1's own delete succeeds. -/
def db6 : DB :=
  ⟨[⟨1, 1, 0, .num (mkRat 50 1), .num (mkRat 1 1), "💰 Другое"⟩],
   [⟨1, 1, 0, .num (mkRat 50 1), .num (mkRat 1 1), "💰 Другое"⟩], [], [], 2, 2⟩

theorem C6_owner_witness :
    update_expense rates0 db6 1 2 (.num (mkRat 10 1)) "🛒 Продукты" = (false, db6) ∧
    delete_expense db6 1 2 = (false, db6) ∧
    (delete_expense db6 1 1).1 = true := by
  have h := C6_owner_scoping rates0 db6 1 1 2 (.num (mkRat 10 1)) "🛒 Продукты"
    (by decide) (by decide) (by decide)
  refine ⟨h.1, h.2.1, ?_⟩
  exact (h.2.2.2.2.2.1 1).2 ⟨⟨1, 1, 0, .num (mkRat 50 1), .num (mkRat 1 1), "💰 Другое"⟩,
    by simp [db6], rfl, rfl⟩

/-! ## C7 — the day-window sums -/

/-- Modelled from the spec: the inclusive calendar window
`[today - (days-1), today]`, expense side. -/
def specWindowExpenses (c : Clock) (db : DB) (uid : ℤ) (days : ℤ) : List MoneyRow :=
  db.expenses.filter
    (fun r => r.user_id = uid ∧ c.today - (days - 1) ≤ r.date ∧ r.date ≤ c.today)

/-- Modelled from the spec: the same window, income side. -/
def specWindowIncome (c : Clock) (db : DB) (uid : ℤ) (days : ℤ) : List MoneyRow :=
  db.income.filter
    (fun r => r.user_id = uid ∧ c.today - (days - 1) ≤ r.date ∧ r.date ≤ c.today)

/-- Claim C7 (confirmed, given the invariant that no stored record is
dated after today — inserts always date rows `datetime.now().date()` and
edits never change dates): the totals are the sums of exactly the
owner's rows in the inclusive window `[today - (days-1), today]`, and an
empty window yields `(0, 0)`. -/
theorem C7_sum_range (c : Clock) (db : DB) (uid : ℤ) (days : ℤ) (_hdays : 1 ≤ days)
    (hE : ∀ r ∈ db.expenses, r.date ≤ c.today)
    (hI : ∀ r ∈ db.income, r.date ≤ c.today) :
    get_total_expenses c db uid days =
      (pySum ((specWindowExpenses c db uid days).map (fun r => r.amount_rub)),
       pySum ((specWindowExpenses c db uid days).map (fun r => r.amount_usd))) ∧
    get_total_income c db uid days =
      (pySum ((specWindowIncome c db uid days).map (fun r => r.amount_rub)),
       pySum ((specWindowIncome c db uid days).map (fun r => r.amount_usd))) ∧
    (specWindowExpenses c db uid days = [] →
      get_total_expenses c db uid days = (.num 0, .num 0)) ∧
    (specWindowIncome c db uid days = [] →
      get_total_income c db uid days = (.num 0, .num 0)) := by
  have keyE : db.expenses.filter
      (fun r => decide (r.user_id = uid ∧ c.today - (days - 1) ≤ r.date)) =
      specWindowExpenses c db uid days := by
    rw [specWindowExpenses]
    refine list_filter_congr_mem _ _ _ (fun r hr => ?_)
    have hd := hE r hr
    simp [hd]
  have keyI : db.income.filter
      (fun r => decide (r.user_id = uid ∧ c.today - (days - 1) ≤ r.date)) =
      specWindowIncome c db uid days := by
    rw [specWindowIncome]
    refine list_filter_congr_mem _ _ _ (fun r hr => ?_)
    have hd := hI r hr
    simp [hd]
  have c1 : get_total_expenses c db uid days =
      (pySum ((specWindowExpenses c db uid days).map (fun r => r.amount_rub)),
       pySum ((specWindowExpenses c db uid days).map (fun r => r.amount_usd))) := by
    rw [get_total_expenses, keyE]
  have c2 : get_total_income c db uid days =
      (pySum ((specWindowIncome c db uid days).map (fun r => r.amount_rub)),
       pySum ((specWindowIncome c db uid days).map (fun r => r.amount_usd))) := by
    rw [get_total_income, keyI]
  refine ⟨c1, c2, ?_, ?_⟩
  · intro h0
    rw [c1, h0]
    rfl
  · intro h0
    rw [c2, h0]
    rfl

/-- C7 witness: with `days = 2` and today = day 10, only the day-10 row
counts, and the empty income window sums to `(0, 0)`. -/
def db7 : DB :=
  ⟨[⟨1, 1, 10, .num (mkRat 5 1), .num (mkRat 1 1), "💰 Другое"⟩,
    ⟨2, 1, 3, .num (mkRat 7 1), .num (mkRat 2 1), "💰 Другое"⟩], [], [], [], 3, 1⟩

theorem C7_sum_witness :
    get_total_expenses clock0 db7 1 2 = (.num (mkRat 5 1), .num (mkRat 1 1)) ∧
    get_total_income clock0 db7 1 2 = (.num 0, .num 0) := by
  have h := C7_sum_range clock0 db7 1 2 (by decide) (by decide) (by decide)
  refine ⟨?_, ?_⟩
  · rw [h.1]; decide
  · rw [h.2.1]; decide

/-! ## C8 — invalid step input leaves the session untouched -/

/-- Claim C8 (confirmed, at the level of the step handlers): every
amount-step handler answers only the invalid-number error and leaves the
world — session step, collected fields, and all stores — unchanged when
the input fails the shared parse (`float` failure or `≤ 0`, i.e.
`parsedAmount = none`), and every category-step handler does the same
with the invalid-category error when the text is not an exact
`"{symbol} {label}"` member of its domain's enumeration. -/
theorem C8_invalid_input_rejected (c : Clock) (uid : ℤ) (w : World) (t : String) :
    (parsedAmount t = none →
      process_expense_amount t w = (w, [.errNumber]) ∧
      process_income_amount t w = (w, [.errNumber]) ∧
      process_budget_amount c uid t w = (w, [.errNumber]) ∧
      process_goal_amount uid t w = (w, [.errNumber]) ∧
      convert_amount t w = (w, [.errNumber]) ∧
      process_edit_expense_amount t w = (w, [.errNumber]) ∧
      process_edit_income_amount t w = (w, [.errNumber])) ∧
    (t ∉ categoryStrings EXPENSE_CATEGORIES →
      process_expense_category c uid t w = (w, [.errCategory]) ∧
      process_budget_category t w = (w, [.errCategory]) ∧
      process_edit_expense_category uid t w = (w, [.errCategory])) ∧
    (t ∉ categoryStrings INCOME_CATEGORIES →
      process_income_category c uid t w = (w, [.errCategory]) ∧
      process_edit_income_category uid t w = (w, [.errCategory])) := by
  refine ⟨fun h => ?_, fun h => ?_, fun h => ?_⟩
  · exact ⟨by simp [process_expense_amount, h], by simp [process_income_amount, h],
      by simp [process_budget_amount, h], by simp [process_goal_amount, h],
      by simp [convert_amount, h], by simp [process_edit_expense_amount, h],
      by simp [process_edit_income_amount, h]⟩
  · exact ⟨by simp [process_expense_category, h], by simp [process_budget_category, h],
      by simp [process_edit_expense_category, h]⟩
  · exact ⟨by simp [process_income_category, h], by simp [process_edit_income_category, h]⟩

/-- C8 witness: `"abc"` is rejected by an amount step, `"еда"` by a
category step, both without touching the world. -/
theorem C8_invalid_witness :
    parsedAmount "abc" = none ∧
    "еда" ∉ categoryStrings EXPENSE_CATEGORIES ∧
    process_expense_amount "abc" world0 = (world0, [.errNumber]) ∧
    process_expense_category clock0 1 "еда" world0 = (world0, [.errCategory]) := by
  refine ⟨by decide, by decide, ?_, ?_⟩
  · exact ((C8_invalid_input_rejected clock0 1 world0 "abc").1 (by decide)).1
  · exact ((C8_invalid_input_rejected clock0 1 world0 "еда").2.1 (by decide)).1

/-! ## C9 — conversion round trip -/

/-- Claim C9 (confirmed): with nonzero rates, pivoting through RUB makes
`convert(convert(x, A, B), B, A)` return exactly `x` for finite amounts
in the exact-rational float model, for every pair of known codes. -/
theorem C9_convert_roundtrip (rates : Rates) (x : ℚ) (A B : String)
    (hu : rates.usd ≠ 0) (hb : rates.byn ≠ 0)
    (hA : A = "RUB" ∨ A = "USD" ∨ A = "BYN")
    (hB : B = "RUB" ∨ B = "USD" ∨ B = "BYN") :
    convert_currency rates (convert_currency rates (.num x) A B) B A = .num x := by
  rcases hA with rfl | rfl | rfl <;> rcases hB with rfl | rfl | rfl <;>
    simp [convert_currency, convertFromRub, pyMul, pyDiv, hu, hb, qmul_eq, qdiv_eq]

/-- C9 witness: `3 USD → BYN → USD` returns `3` at the startup rates. -/
theorem C9_convert_witness :
    convert_currency rates0 (convert_currency rates0 (.num (mkRat 3 1)) "USD" "BYN")
      "BYN" "USD" = .num (mkRat 3 1) :=
  C9_convert_roundtrip rates0 (mkRat 3 1) "USD" "BYN" (by decide) (by decide)
    (Or.inr (Or.inl rfl)) (Or.inr (Or.inr rfl))

/-! ## C10 — nan and inf amount texts -/

/-- The add-expense wizard fed `"nan"` at the amount step. -/
def nanW2 : World :=
  (handleMessage clock0 ⟨rates0, emptyDB, ⟨.addExpenseAmount, {}⟩⟩ 2 "nan").1

/-- `nanW2` then fed a valid category: the INSERT raises
`IntegrityError` (NaN bound as NULL into a `NOT NULL` column), so the
handler aborts — nothing committed, session unchanged. -/
def nanW3 : World := (handleMessage clock0 nanW2 2 "🛒 Продукты").1

/-- The add-income wizard fed `"inf"` at the amount step. -/
def infW2 : World :=
  (handleMessage clock0 ⟨rates0, emptyDB, ⟨.addIncomeAmount, {}⟩⟩ 3 "inf").1

def infW3 : World := (handleMessage clock0 infW2 3 "💼 Зарплата").1

/-- Claim C10 counterexample: a NaN amount never becomes a ledger
record.  sqlite converts the bound NaN double to NULL, the `NOT NULL`
amount columns make the INSERT raise `IntegrityError`, and the
category-step handler aborts uncaught: at the claim's own scenario the
insert returns no row and the world is left exactly as it was (session
still at the category step, ledger empty) — so no record whose
`amount_primary` is NaN is ever committed, and no NaN sums arise. -/
theorem C10_nan_counterexample :
    add_expense_to_db rates0 clock0 emptyDB 2 .nan "🛒 Продукты" = none ∧
    add_income_to_db rates0 clock0 emptyDB 2 .nan "💼 Зарплата" = none ∧
    handleMessage clock0 ⟨rates0, emptyDB, ⟨.addExpenseCategory, { amount := some .nan }⟩⟩ 2
        "🛒 Продукты" =
      (⟨rates0, emptyDB, ⟨.addExpenseCategory, { amount := some .nan }⟩⟩, []) := by
  decide

/-- Claim C10 (corrected): `float` parses `"nan"` and `"inf"` and the
`amount <= 0` guard passes both (nan comparisons are false, `inf > 0`),
so both texts are accepted at every wizard amount step and the session
advances carrying a non-finite amount.  An *infinite* record is then
really committed and the owner's one-day totals and all-time balance
become non-finite; a *NaN* amount, however, dies at the INSERT
(`IntegrityError` via sqlite's NaN-to-NULL conversion against the
`NOT NULL` amount columns): the handler aborts with no record, no
answer, and the session stuck at the category step. -/
theorem C10_nonfinite_amounts :
    parseFloat "nan" = some .nan ∧
    parseFloat "inf" = some .inf ∧
    parsedAmount "nan" = some .nan ∧
    parsedAmount "inf" = some .inf ∧
    nanW2.session = ⟨.addExpenseCategory, { amount := some .nan }⟩ ∧
    nanW3 = nanW2 ∧
    nanW3.db.expenses = [] ∧
    infW2.session = ⟨.addIncomeCategory, { amount := some .inf }⟩ ∧
    infW3.db.income = [⟨1, 3, 10, .inf, .inf, "💼 Зарплата"⟩] ∧
    get_total_income clock0 infW3.db 3 1 = (.inf, .inf) ∧
    (get_balance infW3.db 3).1 = .inf ∧
    pyIsFinite (get_balance infW3.db 3).1 = false := by
  decide

end ExpenseBot
